import Mathlib

/-
Verification development for the InferenceProfile core of the command_gen
repository (src/command_gen/utils/InferenceProfile.py).

Shallow embedding conventions:
  - The process environment is a function from variable names to optional
    string values (os.getenv).
  - The filesystem is a record of the observations the code makes of it:
    os.path.isfile, os.path.exists, os.access(..., R_OK), os.path.getsize,
    reading a text file (f.read), and parsing a file as JSON (json.load;
    none models a parse failure).  Writing a file produces an updated
    filesystem value.
  - Python exceptions become an error type carried in Except.  The
    constructors mirror the Python exception classes raised by the module;
    the message strings reproduce the f-strings of the source.
  - JSON documents are modelled by the inductive JValue.
-/

/-- JSON-like values, as produced by json.load and consumed by json.dump. -/
inductive JValue where
  | str (s : String)
  | num (n : Int)
  | bool (b : Bool)
  | null
  | arr (elems : List JValue)
  | obj (fields : List (String × JValue))

mutual

/-- Python repr() of a JSON-shaped value: single quotes around strings,
True/False/None keywords, bracketed comma-joined containers. -/
def pyRepr : JValue → String
  | JValue.str s => "\x27" ++ s ++ "\x27"
  | JValue.num n => toString n
  | JValue.bool b => if b then "True" else "False"
  | JValue.null => "None"
  | JValue.arr xs => "[" ++ pyReprList xs ++ "]"
  | JValue.obj kvs => "\x7b" ++ pyReprObj kvs ++ "\x7d"

/-- Comma-joined repr of list elements. -/
def pyReprList : List JValue → String
  | [] => ""
  | [x] => pyRepr x
  | x :: y :: rest => pyRepr x ++ ", " ++ pyReprList (y :: rest)

/-- Comma-joined repr of dict entries. -/
def pyReprObj : List (String × JValue) → String
  | [] => ""
  | [(k, v)] => "\x27" ++ k ++ "\x27: " ++ pyRepr v
  | (k, v) :: e :: rest => "\x27" ++ k ++ "\x27: " ++ pyRepr v ++ ", " ++ pyReprObj (e :: rest)

end

/-- Python str() of a value as interpolated by an f-string placeholder:
a str interpolates as itself, every other value as its repr. -/
def pyFStr : JValue → String
  | JValue.str s => s
  | JValue.num n => pyRepr (JValue.num n)
  | JValue.bool b => pyRepr (JValue.bool b)
  | JValue.null => pyRepr JValue.null
  | JValue.arr xs => pyRepr (JValue.arr xs)
  | JValue.obj kvs => pyRepr (JValue.obj kvs)

/-- The process environment: os.getenv. -/
def Env : Type := String → Option String

/-- The filesystem as observed by the module. -/
structure FS where
  isFile : String → Bool
  pathExists : String → Bool
  readable : String → Bool
  size : String → Nat
  text : String → String
  jsonDoc : String → Option JValue

/-- The filesystem after writing a (non-empty) JSON document at a path, as
save_profile does with json.dump(..., indent=4).  The byte size of the dump
is abstracted to the non-zero constant 1 and the raw text to ""; no claim
reads back the raw text of a saved profile, only its parsed JSON value. -/
def FS.withFile (fs : FS) (p : String) (doc : JValue) : FS where
  isFile q := q == p || fs.isFile q
  pathExists q := q == p || fs.pathExists q
  readable q := q == p || fs.readable q
  size q := if q == p then 1 else fs.size q
  text q := if q == p then "" else fs.text q
  jsonDoc q := if q == p then some doc else fs.jsonDoc q

/-- posixpath.join restricted to two arguments, as used by os.path.join in
the module: an absolute second argument replaces the first, an empty or
slash-terminated first argument is concatenated directly, otherwise a
separator is inserted. -/
def os_path_join (a b : String) : String :=
  if b.data.head? = some '/' then b
  else if a = "" then b
  else if a.data.getLast? = some '/' then a ++ b
  else a ++ "/" ++ b

/-- Python exceptions raised by the module.  jsonDecodeError stands for
json.JSONDecodeError, nontermination is the artifact of running the
save_profile while-loop with finite fuel (unreachable whenever some probed
candidate path is free). -/
inductive PyError where
  | environmentError (msg : String)
  | fileNotFoundError (msg : String)
  | permissionError (msg : String)
  | valueError (msg : String)
  | typeError
  | jsonDecodeError
  | indexError
  | attributeError
  | nontermination
  deriving DecidableEq

/-- Message of the EnvironmentError raised for an unset variable (lines
51-53 and 194-196 of the source share this f-string). -/
def envErrMsg (env_variable : String) : String :=
  "Environment variable \x27" ++ env_variable ++ "\x27 is not set, please set it."

/-- file_sanity_check (source lines 9-29): not a file, unreadable, or empty,
in that order. -/
def file_sanity_check (fs : FS) (full_file_path : String) : Except PyError Unit :=
  if fs.isFile full_file_path = false then
    Except.error (PyError.fileNotFoundError
      ("The file " ++ full_file_path ++ " could not be found."))
  else if fs.readable full_file_path = false then
    Except.error (PyError.permissionError
      ("Permission denied to read the file " ++ full_file_path))
  else if fs.size full_file_path = 0 then
    Except.error (PyError.valueError ("The file " ++ full_file_path ++ " is empty"))
  else
    Except.ok ()

/-- get_full_resource_path (source lines 32-60): read the environment
variable, fail if unset, join with the resource name, sanity-check the
joined path, and return it. -/
def get_full_resource_path (env : Env) (fs : FS) (env_variable resource_name : String) :
    Except PyError String :=
  match env env_variable with
  | none => Except.error (PyError.environmentError (envErrMsg env_variable))
  | some env_value =>
    let resource_path := os_path_join env_value resource_name
    match file_sanity_check fs resource_path with
    | Except.error e => Except.error e
    | Except.ok _ => Except.ok resource_path

/-- The in-memory InferenceProfile object.  The nine leading fields are the
attributes stored verbatim by __init__ (source lines 125-133, written there
with a leading underscore); the last three model the attributes that
_load_files may or may not set (Option none = attribute absent; the loaded
HuggingFace tokenizer object is abstracted to its presence). -/
structure InferenceProfile where
  engine_name : String
  base_url : String
  model_id : String
  config_folder_name : String
  api_key : String
  system_prompt_file : String
  tools : List JValue
  optional_hyper_parameters : List (String × JValue)
  load_tokenizer_flag : Bool
  tokenizer : Option Unit
  tokenizer_config : Option JValue
  system_prompt : Option String

/-- The keyword parameters of InferenceProfile.__init__ with their default
values (source lines 91-102).  tools is List JValue because the field is
reused for loaded documents; plain tool names are JValue.str values. -/
structure CtorArgs where
  engine_name : String
  base_url : String
  model_id : String
  config_folder_name : String
  api_key : String := "CHANGE_ME"
  system_prompt_file : String := ""
  tools : List JValue := []
  optional_hyper_parameters : List (String × JValue) := []
  load_tokenizer_flag : Bool := false

/-- The profile as stored by __init__ before _load_files runs: all passed
fields verbatim, no derived attribute set. -/
def mkStored (a : CtorArgs) : InferenceProfile where
  engine_name := a.engine_name
  base_url := a.base_url
  model_id := a.model_id
  config_folder_name := a.config_folder_name
  api_key := a.api_key
  system_prompt_file := a.system_prompt_file
  tools := a.tools
  optional_hyper_parameters := a.optional_hyper_parameters
  load_tokenizer_flag := a.load_tokenizer_flag
  tokenizer := none
  tokenizer_config := none
  system_prompt := none

/-- Resolution of <MODEL_CONFIG_DIR>/<config_folder_name>/tokenizer_config.json
(source lines 222-225). -/
def tokenizerConfigRes (env : Env) (fs : FS) (config_folder_name : String) :
    Except PyError String :=
  get_full_resource_path env fs "MODEL_CONFIG_DIR"
    (os_path_join config_folder_name "tokenizer_config.json")

/-- Resolution of <MODEL_CONFIG_DIR>/<config_folder_name>/tokenizer.json
(source lines 226-228). -/
def tokenizerRes (env : Env) (fs : FS) (config_folder_name : String) :
    Except PyError String :=
  get_full_resource_path env fs "MODEL_CONFIG_DIR"
    (os_path_join config_folder_name "tokenizer.json")

/-- Resolution of <SYSTEM_PROMPTS_DIR>/<system_prompt_file>.txt
(source lines 230-232). -/
def systemPromptRes (env : Env) (fs : FS) (system_prompt_file : String) :
    Except PyError String :=
  get_full_resource_path env fs "SYSTEM_PROMPTS_DIR" (system_prompt_file ++ ".txt")

/-- Resolution of <TOOL_DEFINITIONS_DIR>/<tool>.json for one entry of the
tools list (source line 238); the f-string renders a non-string entry with
its Python str(). -/
def toolRes (env : Env) (fs : FS) (tool : JValue) : Except PyError String :=
  get_full_resource_path env fs "TOOL_DEFINITIONS_DIR" (pyFStr tool ++ ".json")

/-- Source lines 245-249: load the tokenizer when its file exists and the
flag is on; AutoTokenizer.from_pretrained is abstracted to success. -/
def setTokenizer (fs : FS) (p : InferenceProfile) (tokenizer_path : String) :
    InferenceProfile :=
  if fs.pathExists tokenizer_path && p.load_tokenizer_flag then
    { p with tokenizer := some () }
  else p

/-- Source lines 251-254: parse tokenizer_config.json when it exists. -/
def setTokenizerConfig (fs : FS) (p : InferenceProfile) (tokenizer_config_path : String) :
    Except PyError InferenceProfile :=
  if fs.pathExists tokenizer_config_path then
    match fs.jsonDoc tokenizer_config_path with
    | some d => Except.ok { p with tokenizer_config := some d }
    | none => Except.error PyError.jsonDecodeError
  else Except.ok p

/-- Source lines 256-259: read the system prompt text when its path is
truthy (None and the empty string are falsy). -/
def setSystemPrompt (fs : FS) (p : InferenceProfile) (system_prompt_path : Option String) :
    InferenceProfile :=
  match system_prompt_path with
  | some sp => if sp = "" then p else { p with system_prompt := some (fs.text sp) }
  | none => p

/-- Source lines 261-265: replace tools by the parsed documents when the
resolved path list is truthy (None and the empty list are falsy). -/
def setTools (fs : FS) (p : InferenceProfile) (tool_definitions_dir : Option (List String)) :
    Except PyError InferenceProfile :=
  match tool_definitions_dir with
  | some paths =>
    if paths.isEmpty then Except.ok p
    else
      match paths.mapM (fun tool_path =>
              match fs.jsonDoc tool_path with
              | some d => Except.ok d
              | none => Except.error PyError.jsonDecodeError) with
      | Except.error e => Except.error e
      | Except.ok docs => Except.ok { p with tools := docs }
  | none => Except.ok p

/-- The loading half of _load_files (source lines 245-265), run after the
four resolutions succeeded, in source order: tokenizer, tokenizer config,
system prompt, tools. -/
def loadPhase (fs : FS) (p : InferenceProfile) (tokenizer_config_path tokenizer_path : String)
    (system_prompt_path : Option String) (tool_definitions_dir : Option (List String)) :
    Except PyError InferenceProfile :=
  match setTokenizerConfig fs (setTokenizer fs p tokenizer_path) tokenizer_config_path with
  | Except.error e => Except.error e
  | Except.ok p2 => setTools fs (setSystemPrompt fs p2 system_prompt_path) tool_definitions_dir

/-- _load_files (source lines 221-265): resolve the four resource groups in
source order (each resolution failure aborts construction), then load. -/
def _load_files (env : Env) (fs : FS) (p : InferenceProfile) : Except PyError InferenceProfile :=
  match tokenizerConfigRes env fs p.config_folder_name with
  | Except.error e => Except.error e
  | Except.ok tokenizer_config_path =>
    match tokenizerRes env fs p.config_folder_name with
    | Except.error e => Except.error e
    | Except.ok tokenizer_path =>
      match (if p.system_prompt_file = "" then Except.ok none
             else Except.map some (systemPromptRes env fs p.system_prompt_file)) with
      | Except.error e => Except.error e
      | Except.ok system_prompt_path =>
        match (if p.tools.isEmpty then Except.ok none
               else Except.map some (p.tools.mapM (toolRes env fs))) with
        | Except.error e => Except.error e
        | Except.ok tool_definitions_dir =>
          loadPhase fs p tokenizer_config_path tokenizer_path system_prompt_path
            tool_definitions_dir

/-- InferenceProfile.__init__ (source lines 91-135): store the parameters,
then eagerly resolve and load the auxiliary resources. -/
def init_profile (env : Env) (fs : FS) (a : CtorArgs) : Except PyError InferenceProfile :=
  _load_files env fs (mkStored a)

/-- InferenceProfile._to_dict (source lines 167-178). -/
def _to_dict (p : InferenceProfile) : JValue :=
  JValue.obj
    [("engine_name", JValue.str p.engine_name),
     ("base_url", JValue.str p.base_url),
     ("model_id", JValue.str p.model_id),
     ("config_folder_name", JValue.str p.config_folder_name),
     ("api_key", JValue.str p.api_key),
     ("system_prompt_file", JValue.str p.system_prompt_file),
     ("tools", JValue.arr p.tools),
     ("optional_hyper_parameters", JValue.obj p.optional_hyper_parameters),
     ("load_tokenizer_flag", JValue.bool p.load_tokenizer_flag)]

/-- The construction keywords a profile would be re-built from. -/
def argsOf (p : InferenceProfile) : CtorArgs where
  engine_name := p.engine_name
  base_url := p.base_url
  model_id := p.model_id
  config_folder_name := p.config_folder_name
  api_key := p.api_key
  system_prompt_file := p.system_prompt_file
  tools := p.tools
  optional_hyper_parameters := p.optional_hyper_parameters
  load_tokenizer_flag := p.load_tokenizer_flag

/-- The constructor-stored fields other than tools, bundled as a tuple;
used to state that resource loading never rewrites them. -/
def coreOf (p : InferenceProfile) :
    String × String × String × String × String × String × List (String × JValue) × Bool :=
  (p.engine_name, p.base_url, p.model_id, p.config_folder_name, p.api_key,
   p.system_prompt_file, p.optional_hyper_parameters, p.load_tokenizer_flag)

/-- The keys accepted by the constructor. -/
def profileKeys : List String :=
  ["engine_name", "base_url", "model_id", "config_folder_name", "api_key",
   "system_prompt_file", "tools", "optional_hyper_parameters", "load_tokenizer_flag"]

/-- First-match lookup in a JSON object (dict keys are unique in practice). -/
def lookupKey : List (String × JValue) → String → Option JValue
  | [], _ => none
  | (k, v) :: rest, key => if k = key then some v else lookupKey rest key

/-- cls(**profile_params) viewed as decoding construction keywords from a
parsed JSON document (load_profile, source line 89).  A non-object document,
an unknown key, or a missing required key raises TypeError in Python; the
embedding types the fields, so a value whose JSON type does not match the
annotation is also mapped to typeError (Python itself would store it
unchecked — no claim exercises such a document). -/
def paramsOfJson (doc : JValue) : Except PyError CtorArgs :=
  match doc with
  | JValue.obj kvs =>
    if kvs.all (fun kv => profileKeys.contains kv.1) then
      match lookupKey kvs "engine_name", lookupKey kvs "base_url",
            lookupKey kvs "model_id", lookupKey kvs "config_folder_name" with
      | some (JValue.str en), some (JValue.str bu),
        some (JValue.str mi), some (JValue.str cf) =>
        match (match lookupKey kvs "api_key" with
               | none => some "CHANGE_ME" | some (JValue.str s) => some s | some _ => none),
              (match lookupKey kvs "system_prompt_file" with
               | none => some "" | some (JValue.str s) => some s | some _ => none),
              (match lookupKey kvs "tools" with
               | none => some [] | some (JValue.arr xs) => some xs | some _ => none),
              (match lookupKey kvs "optional_hyper_parameters" with
               | none => some [] | some (JValue.obj o) => some o | some _ => none),
              (match lookupKey kvs "load_tokenizer_flag" with
               | none => some false | some (JValue.bool b) => some b | some _ => none) with
        | some ak, some spf, some ts, some ohp, some fl =>
          Except.ok { engine_name := en, base_url := bu, model_id := mi,
                      config_folder_name := cf, api_key := ak, system_prompt_file := spf,
                      tools := ts, optional_hyper_parameters := ohp,
                      load_tokenizer_flag := fl }
        | _, _, _, _, _ => Except.error PyError.typeError
      | _, _, _, _ => Except.error PyError.typeError
    else Except.error PyError.typeError
  | _ => Except.error PyError.typeError

/-- InferenceProfile.load_profile (source lines 65-89): resolve
<PROFILES_DIR>/<profile_name>.json, parse it as JSON, and construct the
profile from its top-level keys. -/
def load_profile (env : Env) (fs : FS) (profile_name : String) :
    Except PyError InferenceProfile :=
  match get_full_resource_path env fs "PROFILES_DIR" (profile_name ++ ".json") with
  | Except.error e => Except.error e
  | Except.ok full_profile_path =>
    match fs.jsonDoc full_profile_path with
    | none => Except.error PyError.jsonDecodeError
    | some doc =>
      match paramsOfJson doc with
      | Except.error e => Except.error e
      | Except.ok a => init_profile env fs a

/-- The k-th candidate path probed by save_profile: <name>.json, then
<name>_1.json, <name>_2.json, ... (source lines 202-210). -/
def candidatePath (profiles_dir profile_name : String) : Nat → String
  | 0 => os_path_join profiles_dir (profile_name ++ ".json")
  | Nat.succ k =>
    os_path_join profiles_dir (profile_name ++ "_" ++ toString (Nat.succ k) ++ ".json")

/-- The while-loop of save_profile (source lines 207-210), run with fuel:
return the first candidate path, counted from index k, at which no file
exists. -/
def findFreePath (fs : FS) (profiles_dir profile_name : String) : Nat → Nat → Option String
  | 0, _ => none
  | Nat.succ fuel, k =>
    if fs.pathExists (candidatePath profiles_dir profile_name k) then
      findFreePath fs profiles_dir profile_name fuel (Nat.succ k)
    else some (candidatePath profiles_dir profile_name k)

/-- InferenceProfile.save_profile (source lines 180-216): require a truthy
PROFILES_DIR (None and "" both fail), probe for the first free candidate
path, and write the _to_dict serialization there.  os.makedirs only ensures
the directory exists and creates no file, so it is not modelled; the result
carries the written path and the updated filesystem. -/
def save_profile (env : Env) (fs : FS) (p : InferenceProfile) (profile_name : String)
    (fuel : Nat) : Except PyError (String × FS) :=
  match env "PROFILES_DIR" with
  | none => Except.error (PyError.environmentError (envErrMsg "PROFILES_DIR"))
  | some profiles_dir =>
    if profiles_dir = "" then
      Except.error (PyError.environmentError (envErrMsg "PROFILES_DIR"))
    else
      match findFreePath fs profiles_dir profile_name fuel 0 with
      | none => Except.error PyError.nontermination
      | some file_path => Except.ok (file_path, fs.withFile file_path (_to_dict p))

/-- One chat message; the source uses dicts with "role" and "content" keys. -/
structure ChatMessage where
  role : String
  content : String
  deriving DecidableEq

/-- InferenceProfile.format_messages_chat (source lines 316-335):
messages[0] is read unconditionally (IndexError on an empty list); when the
first role is not "system" and the _system_prompt attribute is set (it is
set only to the text read from the prompt file, never to None, so the inner
is-not-None test of line 333 always passes), a system message is inserted
in front. -/
def format_messages_chat (p : InferenceProfile) (messages : List ChatMessage) :
    Except PyError (List ChatMessage) :=
  match messages with
  | [] => Except.error PyError.indexError
  | m :: rest =>
    if m.role ≠ "system" then
      match p.system_prompt with
      | some sp => Except.ok ({ role := "system", content := sp } :: m :: rest)
      | none => Except.ok (m :: rest)
    else Except.ok (m :: rest)

/-- Message of the ValueError raised by get_token_count (source lines 292-295). -/
def tokenizerFlagMsg : String :=
  "load_tokenizer_flag is False and tokenizer is not loaded. Set load_tokenizer_flag to True in the Profile\x27s json and reload the profile."

/-- InferenceProfile.get_token_count (source lines 282-297): ValueError when
the flag is off; otherwise the length of the input_ids produced by the
loaded tokenizer, which is abstracted as the function argument tokenize
(AttributeError if the attribute was never set). -/
def get_token_count (p : InferenceProfile) (tokenize : String → List Nat) (text : String) :
    Except PyError Nat :=
  if p.load_tokenizer_flag = false then
    Except.error (PyError.valueError tokenizerFlagMsg)
  else
    match p.tokenizer with
    | none => Except.error PyError.attributeError
    | some _ => Except.ok (tokenize text).length

/-- Discriminator of the Python exception class carried by a PyError. -/
def PyError.kind : PyError → Nat
  | .environmentError _ => 0
  | .fileNotFoundError _ => 1
  | .permissionError _ => 2
  | .valueError _ => 3
  | .typeError => 4
  | .jsonDecodeError => 5
  | .indexError => 6
  | .attributeError => 7
  | .nontermination => 8

/-!  Concrete environments, filesystems, parameter sets and profiles used by
the witness, counterexample and failing-input theorems below. -/

/-- Environment with no variable set. -/
def envNone : Env := fun _ => none

/-- Environment binding only the variable VAR to /base. -/
def envVar : Env := fun e => if e = "VAR" then some "/base" else none

/-- Environment binding only PROFILES_DIR, to the empty string. -/
def envEmptyProfiles : Env := fun e => if e = "PROFILES_DIR" then some "" else none

/-- Environment binding the four resource directories of the module. -/
def envW : Env := fun e =>
  if e = "MODEL_CONFIG_DIR" then some "/cfg"
  else if e = "PROFILES_DIR" then some "/profiles"
  else if e = "SYSTEM_PROMPTS_DIR" then some "/prompts"
  else if e = "TOOL_DEFINITIONS_DIR" then some "/tools"
  else none

/-- Filesystem holding at most the single file /base/r.txt, with the given
presence, readability and size. -/
def fsProbe (present canRead : Bool) (sz : Nat) : FS where
  isFile q := q == "/base/r.txt" && present
  pathExists q := q == "/base/r.txt" && present
  readable q := q == "/base/r.txt" && canRead
  size q := if q == "/base/r.txt" then sz else 0
  text _ := ""
  jsonDoc _ := none

/-- Like fsProbe true true 1 but with different file content, to witness
content independence of the resolver. -/
def fsProbeOtherContent : FS where
  isFile q := q == "/base/r.txt" && true
  pathExists q := q == "/base/r.txt" && true
  readable q := q == "/base/r.txt" && true
  size q := if q == "/base/r.txt" then 1 else 0
  text _ := "other content"
  jsonDoc _ := some JValue.null

/-- Filesystem with no files at all. -/
def fsEmpty : FS where
  isFile _ := false
  pathExists _ := false
  readable _ := false
  size _ := 0
  text _ := ""
  jsonDoc _ := none

/-- Filesystem whose only file is the tokenizer config of model folder m. -/
def fsOnlyTokenizerConfig : FS where
  isFile q := q == "/cfg/m/tokenizer_config.json"
  pathExists q := q == "/cfg/m/tokenizer_config.json"
  readable q := q == "/cfg/m/tokenizer_config.json"
  size q := if q == "/cfg/m/tokenizer_config.json" then 1 else 0
  text _ := ""
  jsonDoc q := if q == "/cfg/m/tokenizer_config.json" then some (JValue.obj []) else none

/-- Filesystem holding the two tokenizer files of model folder m. -/
def fsW : FS where
  isFile q := q == "/cfg/m/tokenizer_config.json" || q == "/cfg/m/tokenizer.json"
  pathExists q := q == "/cfg/m/tokenizer_config.json" || q == "/cfg/m/tokenizer.json"
  readable q := q == "/cfg/m/tokenizer_config.json" || q == "/cfg/m/tokenizer.json"
  size q := if q == "/cfg/m/tokenizer_config.json" || q == "/cfg/m/tokenizer.json" then 1 else 0
  text _ := ""
  jsonDoc q := if q == "/cfg/m/tokenizer_config.json" then some (JValue.obj []) else none

/-- Construction keywords for a minimal profile on model folder m. -/
def argsW : CtorArgs where
  engine_name := "e"
  base_url := "u"
  model_id := "m1"
  config_folder_name := "m"

/-- The profile that argsW constructs on envW and fsW: the stored fields,
the parsed tokenizer config, no tokenizer (flag off), no prompt, no tools. -/
def pW : InferenceProfile where
  engine_name := "e"
  base_url := "u"
  model_id := "m1"
  config_folder_name := "m"
  api_key := "CHANGE_ME"
  system_prompt_file := ""
  tools := []
  optional_hyper_parameters := []
  load_tokenizer_flag := false
  tokenizer := none
  tokenizer_config := some (JValue.obj [])
  system_prompt := none

/-- argsW with a requested system prompt named sys. -/
def argsPrompt : CtorArgs := { argsW with system_prompt_file := "sys" }

/-- argsW with one requested tool named t. -/
def argsTool : CtorArgs := { argsW with tools := [JValue.str "t"] }

/-- A fixed fully constructed profile value used by witnesses that need an
arbitrary in-memory profile. -/
def pFix : InferenceProfile where
  engine_name := "e"
  base_url := "u"
  model_id := "m1"
  config_folder_name := "m"
  api_key := "CHANGE_ME"
  system_prompt_file := ""
  tools := []
  optional_hyper_parameters := []
  load_tokenizer_flag := false
  tokenizer := none
  tokenizer_config := none
  system_prompt := none

/-- Profile pFix with the loaded system prompt S. -/
def pFixPrompt : InferenceProfile := { pFix with system_prompt := some "S" }

/-- A sample tool-definition document. -/
def toolDoc : JValue := JValue.obj [("name", JValue.str "t")]

/-- Filesystem holding the two tokenizer files of model folder m and the
tool definition /tools/t.json. -/
def fsTools : FS where
  isFile q := q == "/cfg/m/tokenizer_config.json" || q == "/cfg/m/tokenizer.json"
    || q == "/tools/t.json"
  pathExists q := q == "/cfg/m/tokenizer_config.json" || q == "/cfg/m/tokenizer.json"
    || q == "/tools/t.json"
  readable q := q == "/cfg/m/tokenizer_config.json" || q == "/cfg/m/tokenizer.json"
    || q == "/tools/t.json"
  size q := if q == "/cfg/m/tokenizer_config.json" || q == "/cfg/m/tokenizer.json"
    || q == "/tools/t.json" then 1 else 0
  text _ := ""
  jsonDoc q :=
    if q == "/tools/t.json" then some toolDoc
    else if q == "/cfg/m/tokenizer_config.json" then some (JValue.obj []) else none

/-- The profile that argsTool constructs on envW and fsTools: its tools
field holds the loaded document, no longer the tool name. -/
def pTools : InferenceProfile where
  engine_name := "e"
  base_url := "u"
  model_id := "m1"
  config_folder_name := "m"
  api_key := "CHANGE_ME"
  system_prompt_file := ""
  tools := [toolDoc]
  optional_hyper_parameters := []
  load_tokenizer_flag := false
  tokenizer := none
  tokenizer_config := some (JValue.obj [])
  system_prompt := none

/-- Filesystem on which /profiles/p.json and /profiles/p_1.json are taken
and every other path is free. -/
def fsTwoTaken : FS where
  isFile q := q == "/profiles/p.json" || q == "/profiles/p_1.json"
  pathExists q := q == "/profiles/p.json" || q == "/profiles/p_1.json"
  readable q := q == "/profiles/p.json" || q == "/profiles/p_1.json"
  size q := if q == "/profiles/p.json" || q == "/profiles/p_1.json" then 1 else 0
  text _ := ""
  jsonDoc _ := none

/-- Joining the empty base directory with a resource name yields the name. -/
lemma os_path_join_empty (r : String) : os_path_join "" r = r := by
  unfold os_path_join
  split
  · rfl
  · simp

/-- Claim C3: the resource resolver raises a ConfigurationError before any
filesystem access when the environment variable is unset (the result does
not depend on the filesystem at all); with the variable set, a missing file
raises NotFoundError, an unreadable file PermissionError, an empty file the
empty-resource ValueError; on success it returns the joined path, depending
only on the existence, readability and size observations (no file content
is read); the four error kinds are mutually distinguishable. -/
theorem C3_resolver_error_taxonomy (env : Env) (fs : FS) (e n : String) :
    (env e = none → ∀ fs2 : FS, get_full_resource_path env fs2 e n =
        Except.error (PyError.environmentError (envErrMsg e)))
    ∧ (∀ v, env e = some v →
        (fs.isFile (os_path_join v n) = false →
          get_full_resource_path env fs e n = Except.error (PyError.fileNotFoundError
            ("The file " ++ os_path_join v n ++ " could not be found.")))
        ∧ (fs.isFile (os_path_join v n) = true → fs.readable (os_path_join v n) = false →
          get_full_resource_path env fs e n = Except.error (PyError.permissionError
            ("Permission denied to read the file " ++ os_path_join v n)))
        ∧ (fs.isFile (os_path_join v n) = true → fs.readable (os_path_join v n) = true →
           fs.size (os_path_join v n) = 0 →
          get_full_resource_path env fs e n = Except.error (PyError.valueError
            ("The file " ++ os_path_join v n ++ " is empty")))
        ∧ (fs.isFile (os_path_join v n) = true → fs.readable (os_path_join v n) = true →
           fs.size (os_path_join v n) ≠ 0 →
          get_full_resource_path env fs e n = Except.ok (os_path_join v n)))
    ∧ (∀ fs2 : FS, fs2.isFile = fs.isFile → fs2.readable = fs.readable →
        fs2.size = fs.size →
        get_full_resource_path env fs2 e n = get_full_resource_path env fs e n)
    ∧ (∀ m1 m2 m3 m4 : String,
        (PyError.environmentError m1).kind = 0 ∧ (PyError.fileNotFoundError m2).kind = 1
        ∧ (PyError.permissionError m3).kind = 2 ∧ (PyError.valueError m4).kind = 3) := by
  refine ⟨?_, ?_, ?_, ?_⟩
  · intro h fs2
    unfold get_full_resource_path
    rw [h]
  · intro v hv
    refine ⟨?_, ?_, ?_, ?_⟩
    · intro h1
      unfold get_full_resource_path file_sanity_check
      rw [hv]
      simp [h1]
    · intro h1 h2
      unfold get_full_resource_path file_sanity_check
      rw [hv]
      simp [h1, h2]
    · intro h1 h2 h3
      unfold get_full_resource_path file_sanity_check
      rw [hv]
      simp [h1, h2, h3]
    · intro h1 h2 h3
      unfold get_full_resource_path file_sanity_check
      rw [hv]
      simp [h1, h2, h3]
  · intro fs2 h1 h2 h3
    unfold get_full_resource_path file_sanity_check
    rw [h1, h2, h3]
  · intro m1 m2 m3 m4
    exact ⟨rfl, rfl, rfl, rfl⟩

/-- Witness for C3 on the concrete resource VAR=/base, r.txt. -/
theorem C3_resolver_error_taxonomy_witness :
    get_full_resource_path envNone (fsProbe true true 1) "VAR" "r.txt" =
      Except.error (PyError.environmentError (envErrMsg "VAR"))
    ∧ get_full_resource_path envVar (fsProbe false false 0) "VAR" "r.txt" =
      Except.error (PyError.fileNotFoundError
        ("The file " ++ os_path_join "/base" "r.txt" ++ " could not be found."))
    ∧ get_full_resource_path envVar (fsProbe true false 1) "VAR" "r.txt" =
      Except.error (PyError.permissionError
        ("Permission denied to read the file " ++ os_path_join "/base" "r.txt"))
    ∧ get_full_resource_path envVar (fsProbe true true 0) "VAR" "r.txt" =
      Except.error (PyError.valueError
        ("The file " ++ os_path_join "/base" "r.txt" ++ " is empty"))
    ∧ get_full_resource_path envVar (fsProbe true true 1) "VAR" "r.txt" =
      Except.ok (os_path_join "/base" "r.txt")
    ∧ get_full_resource_path envVar fsProbeOtherContent "VAR" "r.txt" =
      get_full_resource_path envVar (fsProbe true true 1) "VAR" "r.txt" := by
  refine ⟨?_, ?_, ?_, ?_, ?_, ?_⟩
  · exact (C3_resolver_error_taxonomy envNone (fsProbe true true 1) "VAR" "r.txt").1 rfl
      (fsProbe true true 1)
  · exact (((C3_resolver_error_taxonomy envVar (fsProbe false false 0) "VAR" "r.txt").2.1
      "/base" rfl).1 (by decide))
  · exact (((C3_resolver_error_taxonomy envVar (fsProbe true false 1) "VAR" "r.txt").2.1
      "/base" rfl).2.1 (by decide) (by decide))
  · exact (((C3_resolver_error_taxonomy envVar (fsProbe true true 0) "VAR" "r.txt").2.1
      "/base" rfl).2.2.1 (by decide) (by decide) (by decide))
  · exact (((C3_resolver_error_taxonomy envVar (fsProbe true true 1) "VAR" "r.txt").2.1
      "/base" rfl).2.2.2 (by decide) (by decide) (by decide))
  · exact ((C3_resolver_error_taxonomy envVar (fsProbe true true 1) "VAR" "r.txt").2.2.1
      fsProbeOtherContent rfl rfl rfl)

/-- Claim C9: format_messages_chat reads messages[0] before any other
check, so on the empty list every profile gets an IndexError; in
particular the empty list is not returned unchanged and no system message
is inserted. -/
theorem C9_empty_messages_index_error (p : InferenceProfile) :
    format_messages_chat p [] = Except.error PyError.indexError := rfl

/-- Claim C10: with PROFILES_DIR set to the empty string, save_profile
raises the configuration error (falsy check) while the resolver used by
load_profile proceeds to the filesystem checks on the joined path (which
equals the bare resource name); the resolver raises the configuration
error only when the variable is entirely unset, and so does save_profile. -/
theorem C10_profiles_dir_empty_string_divergence (env envU : Env) (fs : FS)
    (p : InferenceProfile) (profile_name r : String) (fuel : Nat)
    (hset : env "PROFILES_DIR" = some "") (hunset : envU "PROFILES_DIR" = none) :
    save_profile env fs p profile_name fuel =
      Except.error (PyError.environmentError (envErrMsg "PROFILES_DIR"))
    ∧ save_profile envU fs p profile_name fuel =
      Except.error (PyError.environmentError (envErrMsg "PROFILES_DIR"))
    ∧ get_full_resource_path envU fs "PROFILES_DIR" r =
      Except.error (PyError.environmentError (envErrMsg "PROFILES_DIR"))
    ∧ get_full_resource_path env fs "PROFILES_DIR" r =
      Except.map (fun _ => r) (file_sanity_check fs r) := by
  refine ⟨?_, ?_, ?_, ?_⟩
  · unfold save_profile
    rw [hset]
    simp
  · unfold save_profile
    rw [hunset]
  · unfold get_full_resource_path
    rw [hunset]
  · unfold get_full_resource_path
    rw [hset]
    dsimp only
    rw [os_path_join_empty]
    cases file_sanity_check fs r <;> simp [Except.map]

/-- Witness for C10 at a concrete environment and filesystem. -/
theorem C10_profiles_dir_empty_string_divergence_witness :
    save_profile envEmptyProfiles (fsProbe true true 1) pFix "p" 3 =
      Except.error (PyError.environmentError (envErrMsg "PROFILES_DIR"))
    ∧ save_profile envNone (fsProbe true true 1) pFix "p" 3 =
      Except.error (PyError.environmentError (envErrMsg "PROFILES_DIR"))
    ∧ get_full_resource_path envNone (fsProbe true true 1) "PROFILES_DIR" "q.json" =
      Except.error (PyError.environmentError (envErrMsg "PROFILES_DIR"))
    ∧ get_full_resource_path envEmptyProfiles (fsProbe true true 1) "PROFILES_DIR" "q.json" =
      Except.map (fun _ => "q.json") (file_sanity_check (fsProbe true true 1) "q.json") :=
  C10_profiles_dir_empty_string_divergence envEmptyProfiles envNone (fsProbe true true 1)
    pFix "p" "q.json" 3 rfl rfl

/-- Claim C5: on a non-empty message list whose first role is not system,
a profile with loaded system prompt S gets a new leading system message
with content S; a list already starting with a system message, or any
non-empty list on a profile with no loaded prompt, comes back unchanged. -/
theorem C5_format_messages_chat_cases (p : InferenceProfile) (m : ChatMessage)
    (rest : List ChatMessage) (S : String) :
    (m.role ≠ "system" → p.system_prompt = some S →
      format_messages_chat p (m :: rest) =
        Except.ok ({ role := "system", content := S } :: m :: rest))
    ∧ (m.role = "system" → format_messages_chat p (m :: rest) = Except.ok (m :: rest))
    ∧ (p.system_prompt = none → format_messages_chat p (m :: rest) = Except.ok (m :: rest)) := by
  refine ⟨?_, ?_, ?_⟩
  · intro hr hs
    simp only [format_messages_chat, hs]
    simp [hr]
  · intro hr
    simp only [format_messages_chat]
    simp [hr]
  · intro hs
    simp only [format_messages_chat, hs]
    split <;> rfl

/-- Witness for C5: the three cases at concrete messages. -/
theorem C5_format_messages_chat_cases_witness :
    format_messages_chat pFixPrompt [{ role := "user", content := "hi" }] =
      Except.ok [{ role := "system", content := "S" }, { role := "user", content := "hi" }]
    ∧ format_messages_chat pFixPrompt
        [{ role := "system", content := "x" }, { role := "user", content := "hi" }] =
      Except.ok [{ role := "system", content := "x" }, { role := "user", content := "hi" }]
    ∧ format_messages_chat pFix [{ role := "user", content := "hi" }] =
      Except.ok [{ role := "user", content := "hi" }] := by
  refine ⟨?_, ?_, ?_⟩
  · exact (C5_format_messages_chat_cases pFixPrompt { role := "user", content := "hi" } [] "S").1
      (by decide) rfl
  · exact (C5_format_messages_chat_cases pFixPrompt { role := "system", content := "x" }
      [{ role := "user", content := "hi" }] "S").2.1 rfl
  · exact (C5_format_messages_chat_cases pFix { role := "user", content := "hi" } [] "S").2.2
      rfl

/-- Claim C6: on every non-empty message list, running format_messages_chat
twice equals running it once: after one run the head is a system message or
the profile has no loaded prompt, so the second run inserts nothing. -/
theorem C6_format_messages_chat_idempotent (p : InferenceProfile)
    (messages : List ChatMessage) (h : messages ≠ []) :
    (format_messages_chat p messages).bind (format_messages_chat p) =
      format_messages_chat p messages := by
  cases messages with
  | nil => exact absurd rfl h
  | cons m rest =>
    by_cases hr : m.role = "system"
    · simp [format_messages_chat, hr, Except.bind]
    · cases hs : p.system_prompt with
      | none => simp [format_messages_chat, hr, hs, Except.bind]
      | some sp => simp [format_messages_chat, hr, hs, Except.bind]

/-- Witness for C6 at a concrete list (result: double application equals
single application, both inserting exactly one system message). -/
theorem C6_format_messages_chat_idempotent_witness :
    (format_messages_chat pFixPrompt [{ role := "user", content := "hi" }]).bind
        (format_messages_chat pFixPrompt) =
      format_messages_chat pFixPrompt [{ role := "user", content := "hi" }] :=
  C6_format_messages_chat_idempotent pFixPrompt [{ role := "user", content := "hi" }]
    (by decide)

/-- setTokenizer either leaves the profile unchanged or only sets tokenizer. -/
lemma setTokenizer_shape (fs : FS) (p : InferenceProfile) (tokP : String) :
    setTokenizer fs p tokP = p ∨ setTokenizer fs p tokP = { p with tokenizer := some () } := by
  unfold setTokenizer
  split
  · right; rfl
  · left; rfl

/-- A successful setTokenizerConfig either leaves the profile unchanged or
only sets tokenizer_config. -/
lemma setTokenizerConfig_shape {fs : FS} {p : InferenceProfile} {cfgP : String}
    {q : InferenceProfile} (h : setTokenizerConfig fs p cfgP = Except.ok q) :
    q = p ∨ ∃ d, q = { p with tokenizer_config := some d } := by
  unfold setTokenizerConfig at h
  split at h
  · split at h
    · injection h with h
      right
      exact ⟨_, h.symm⟩
    · exact Except.noConfusion h
  · injection h with h
    left
    exact h.symm

/-- setTokenizerConfig succeeds when the existence guard implies a parsed
document. -/
lemma setTokenizerConfig_ok_cond {fs : FS} {cfgP : String} (p : InferenceProfile)
    (h : fs.pathExists cfgP = true → ∃ d, fs.jsonDoc cfgP = some d) :
    ∃ q, setTokenizerConfig fs p cfgP = Except.ok q := by
  unfold setTokenizerConfig
  split
  · rename_i hex
    obtain ⟨d, hd⟩ := h hex
    rw [hd]
    exact ⟨_, rfl⟩
  · exact ⟨_, rfl⟩

/-- A successful setTokenizerConfig validates the existence guard. -/
lemma setTokenizerConfig_ok_inv {fs : FS} {p : InferenceProfile} {cfgP : String}
    {q : InferenceProfile} (h : setTokenizerConfig fs p cfgP = Except.ok q) :
    fs.pathExists cfgP = true → ∃ d, fs.jsonDoc cfgP = some d := by
  intro hex
  unfold setTokenizerConfig at h
  rw [hex] at h
  simp only [if_true] at h
  cases hd : fs.jsonDoc cfgP with
  | none => rw [hd] at h; exact Except.noConfusion h
  | some d => exact ⟨d, rfl⟩

/-- setSystemPrompt either leaves the profile unchanged or only sets
system_prompt. -/
lemma setSystemPrompt_shape (fs : FS) (p : InferenceProfile) (spP : Option String) :
    setSystemPrompt fs p spP = p
    ∨ ∃ s, setSystemPrompt fs p spP = { p with system_prompt := some s } := by
  cases spP with
  | none => left; rfl
  | some sp =>
    unfold setSystemPrompt
    by_cases hsp : sp = ""
    · left; simp [hsp]
    · right; exact ⟨fs.text sp, by simp [hsp]⟩

/-- setTools with no resolved path list is the identity. -/
lemma setTools_none (fs : FS) (p : InferenceProfile) : setTools fs p none = Except.ok p := rfl

/-- A successful setTools either leaves the profile unchanged or only
replaces tools. -/
lemma setTools_shape {fs : FS} {p : InferenceProfile} {toolPs : Option (List String)}
    {q : InferenceProfile} (h : setTools fs p toolPs = Except.ok q) :
    q = p ∨ ∃ docs, q = { p with tools := docs } := by
  cases toolPs with
  | none =>
    rw [setTools_none] at h
    injection h with h
    left
    exact h.symm
  | some paths =>
    simp only [setTools] at h
    by_cases hp : paths.isEmpty = true
    · rw [if_pos hp] at h
      injection h with h
      left
      exact h.symm
    · rw [if_neg hp] at h
      split at h
      · exact Except.noConfusion h
      · injection h with h
        right
        exact ⟨_, h.symm⟩

/-- setTokenizer preserves the core fields. -/
lemma setTokenizer_coreOf (fs : FS) (p : InferenceProfile) (tokP : String) :
    coreOf (setTokenizer fs p tokP) = coreOf p := by
  rcases setTokenizer_shape fs p tokP with h | h <;> rw [h] <;> rfl

/-- setTokenizer preserves tools. -/
lemma setTokenizer_tools (fs : FS) (p : InferenceProfile) (tokP : String) :
    (setTokenizer fs p tokP).tools = p.tools := by
  rcases setTokenizer_shape fs p tokP with h | h <;> rw [h]

/-- setTokenizer preserves system_prompt. -/
lemma setTokenizer_system_prompt (fs : FS) (p : InferenceProfile) (tokP : String) :
    (setTokenizer fs p tokP).system_prompt = p.system_prompt := by
  rcases setTokenizer_shape fs p tokP with h | h <;> rw [h]

/-- A successful setTokenizerConfig preserves the core fields. -/
lemma setTokenizerConfig_coreOf {fs : FS} {p : InferenceProfile} {cfgP : String}
    {q : InferenceProfile} (h : setTokenizerConfig fs p cfgP = Except.ok q) :
    coreOf q = coreOf p := by
  rcases setTokenizerConfig_shape h with h2 | ⟨d, h2⟩ <;> subst h2 <;> rfl

/-- A successful setTokenizerConfig preserves tools. -/
lemma setTokenizerConfig_tools {fs : FS} {p : InferenceProfile} {cfgP : String}
    {q : InferenceProfile} (h : setTokenizerConfig fs p cfgP = Except.ok q) :
    q.tools = p.tools := by
  rcases setTokenizerConfig_shape h with h2 | ⟨d, h2⟩ <;> subst h2 <;> rfl

/-- A successful setTokenizerConfig preserves system_prompt. -/
lemma setTokenizerConfig_system_prompt {fs : FS} {p : InferenceProfile} {cfgP : String}
    {q : InferenceProfile} (h : setTokenizerConfig fs p cfgP = Except.ok q) :
    q.system_prompt = p.system_prompt := by
  rcases setTokenizerConfig_shape h with h2 | ⟨d, h2⟩ <;> subst h2 <;> rfl

/-- setSystemPrompt preserves the core fields. -/
lemma setSystemPrompt_coreOf (fs : FS) (p : InferenceProfile) (spP : Option String) :
    coreOf (setSystemPrompt fs p spP) = coreOf p := by
  rcases setSystemPrompt_shape fs p spP with h | ⟨s, h⟩ <;> rw [h] <;> rfl

/-- setSystemPrompt preserves tools. -/
lemma setSystemPrompt_tools (fs : FS) (p : InferenceProfile) (spP : Option String) :
    (setSystemPrompt fs p spP).tools = p.tools := by
  rcases setSystemPrompt_shape fs p spP with h | ⟨s, h⟩ <;> rw [h]

/-- A successful setTools preserves the core fields. -/
lemma setTools_coreOf {fs : FS} {p : InferenceProfile} {toolPs : Option (List String)}
    {q : InferenceProfile} (h : setTools fs p toolPs = Except.ok q) :
    coreOf q = coreOf p := by
  rcases setTools_shape h with h2 | ⟨docs, h2⟩ <;> subst h2 <;> rfl

/-- A successful setTools preserves system_prompt. -/
lemma setTools_system_prompt {fs : FS} {p : InferenceProfile} {toolPs : Option (List String)}
    {q : InferenceProfile} (h : setTools fs p toolPs = Except.ok q) :
    q.system_prompt = p.system_prompt := by
  rcases setTools_shape h with h2 | ⟨docs, h2⟩ <;> subst h2 <;> rfl

/-- A successful loadPhase preserves the core fields. -/
lemma loadPhase_ok_coreOf {fs : FS} {p : InferenceProfile} {cfgP tokP : String}
    {spP : Option String} {toolPs : Option (List String)} {q : InferenceProfile}
    (h : loadPhase fs p cfgP tokP spP toolPs = Except.ok q) :
    coreOf q = coreOf p := by
  unfold loadPhase at h
  split at h
  · exact Except.noConfusion h
  · rename_i p2 hc
    calc coreOf q = coreOf (setSystemPrompt fs p2 spP) := setTools_coreOf h
      _ = coreOf p2 := setSystemPrompt_coreOf fs p2 spP
      _ = coreOf (setTokenizer fs p tokP) := setTokenizerConfig_coreOf hc
      _ = coreOf p := setTokenizer_coreOf fs p tokP

/-- A successful loadPhase with no resolved tool paths preserves tools. -/
lemma loadPhase_ok_tools_none {fs : FS} {p : InferenceProfile} {cfgP tokP : String}
    {spP : Option String} {q : InferenceProfile}
    (h : loadPhase fs p cfgP tokP spP none = Except.ok q) :
    q.tools = p.tools := by
  unfold loadPhase at h
  split at h
  · exact Except.noConfusion h
  · rename_i p2 hc
    rw [setTools_none] at h
    injection h with h
    calc q.tools = (setSystemPrompt fs p2 spP).tools := by rw [h]
      _ = p2.tools := setSystemPrompt_tools fs p2 spP
      _ = (setTokenizer fs p tokP).tools := setTokenizerConfig_tools hc
      _ = p.tools := setTokenizer_tools fs p tokP

/-- A successful loadPhase with no system-prompt path preserves
system_prompt. -/
lemma loadPhase_ok_prompt_none {fs : FS} {p : InferenceProfile} {cfgP tokP : String}
    {toolPs : Option (List String)} {q : InferenceProfile}
    (h : loadPhase fs p cfgP tokP none toolPs = Except.ok q) :
    q.system_prompt = p.system_prompt := by
  unfold loadPhase at h
  split at h
  · exact Except.noConfusion h
  · rename_i p2 hc
    have hsp : setSystemPrompt fs p2 none = p2 := rfl
    rw [hsp] at h
    calc q.system_prompt = p2.system_prompt := setTools_system_prompt h
      _ = (setTokenizer fs p tokP).system_prompt := setTokenizerConfig_system_prompt hc
      _ = p.system_prompt := setTokenizer_system_prompt fs p tokP

/-- Inversion of a successful _load_files into its four resolution results
and the load phase. -/
lemma _load_files_ok_inv {env : Env} {fs : FS} {p q : InferenceProfile}
    (h : _load_files env fs p = Except.ok q) :
    ∃ cfgP tokP spP toolPs,
      tokenizerConfigRes env fs p.config_folder_name = Except.ok cfgP
      ∧ tokenizerRes env fs p.config_folder_name = Except.ok tokP
      ∧ (if p.system_prompt_file = "" then Except.ok none
         else Except.map some (systemPromptRes env fs p.system_prompt_file)) = Except.ok spP
      ∧ (if p.tools.isEmpty then Except.ok none
         else Except.map some (p.tools.mapM (toolRes env fs))) = Except.ok toolPs
      ∧ loadPhase fs p cfgP tokP spP toolPs = Except.ok q := by
  unfold _load_files at h
  split at h
  · exact Except.noConfusion h
  · rename_i cfgP h1
    split at h
    · exact Except.noConfusion h
    · rename_i tokP h2
      split at h
      · exact Except.noConfusion h
      · rename_i spP h3
        split at h
        · exact Except.noConfusion h
        · rename_i toolPs h4
          exact ⟨cfgP, tokP, spP, toolPs, h1, h2, h3, h4, h⟩

/-- A successful construction stores load_tokenizer_flag verbatim. -/
lemma init_profile_flag {env : Env} {fs : FS} {a : CtorArgs} {p : InferenceProfile}
    (h : init_profile env fs a = Except.ok p) :
    p.load_tokenizer_flag = a.load_tokenizer_flag := by
  have h0 : _load_files env fs (mkStored a) = Except.ok p := h
  obtain ⟨cfgP, tokP, spP, toolPs, h1, h2, h3, h4, h5⟩ := _load_files_ok_inv h0
  have hcore := loadPhase_ok_coreOf h5
  have := congrArg (fun t => t.2.2.2.2.2.2.2) hcore
  simpa [coreOf, mkStored] using this

/-- Claim C1: the failing input in evidence.  With MODEL_CONFIG_DIR set and
the tokenizer-config (resp. tokenizer) file absent, construction raises the
resolver FileNotFoundError instead of succeeding with the attribute unset:
the resolver of source lines 222-228 runs before the existence guards of
lines 246 and 252 can tolerate the absence. -/
theorem C1_missing_tokenizer_resources_fatal :
    init_profile envW fsEmpty argsW =
      Except.error (PyError.fileNotFoundError
        "The file /cfg/m/tokenizer_config.json could not be found.")
    ∧ init_profile envW fsOnlyTokenizerConfig argsW =
      Except.error (PyError.fileNotFoundError
        "The file /cfg/m/tokenizer.json could not be found.") :=
  ⟨rfl, rfl⟩

/-- Claim C8: on a profile constructed with load_tokenizer_flag=False,
get_token_count raises the precondition ValueError, and the outcome does
not depend on the text (nor on the tokenizer). -/
theorem C8_get_token_count_requires_flag (env : Env) (fs : FS) (a : CtorArgs)
    (p : InferenceProfile) (hflag : a.load_tokenizer_flag = false)
    (hinit : init_profile env fs a = Except.ok p)
    (tokenize tokenize2 : String → List Nat) (text text2 : String) :
    get_token_count p tokenize text = Except.error (PyError.valueError tokenizerFlagMsg)
    ∧ get_token_count p tokenize text = get_token_count p tokenize2 text2 := by
  have hf : p.load_tokenizer_flag = false := (init_profile_flag hinit).trans hflag
  constructor
  · unfold get_token_count
    simp [hf]
  · unfold get_token_count
    simp [hf]

/-- Witness for C8: a concrete construction with the flag off, then a
token-count request that raises. -/
theorem C8_get_token_count_requires_flag_witness :
    get_token_count pW (fun _ => []) "abc" =
      Except.error (PyError.valueError tokenizerFlagMsg) :=
  (C8_get_token_count_requires_flag envW fsW argsW pW rfl rfl
    (fun _ => []) (fun _ => [0]) "abc" "zz").1

/-- The resolver only reads the queried environment variable. -/
lemma get_full_resource_path_env_congr {env env2 : Env} (fs : FS) {e : String} (n : String)
    (h : env e = env2 e) :
    get_full_resource_path env fs e n = get_full_resource_path env2 fs e n := by
  unfold get_full_resource_path
  rw [h]

/-- When every resolution step succeeds, _load_files is its load phase. -/
lemma _load_files_ok_steps {env : Env} {fs : FS} {p : InferenceProfile}
    {cfgP tokP : String} {spP : Option String} {toolPs : Option (List String)}
    (h1 : tokenizerConfigRes env fs p.config_folder_name = Except.ok cfgP)
    (h2 : tokenizerRes env fs p.config_folder_name = Except.ok tokP)
    (h3 : (if p.system_prompt_file = "" then Except.ok none
           else Except.map some (systemPromptRes env fs p.system_prompt_file)) = Except.ok spP)
    (h4 : (if p.tools.isEmpty then Except.ok none
           else Except.map some (p.tools.mapM (toolRes env fs))) = Except.ok toolPs) :
    _load_files env fs p = loadPhase fs p cfgP tokP spP toolPs := by
  unfold _load_files
  rw [h1, h2, h3, h4]

/-- A failing system-prompt resolution aborts _load_files with its error. -/
lemma _load_files_prompt_err {env : Env} {fs : FS} {p : InferenceProfile}
    {cfgP tokP : String} {e : PyError}
    (h1 : tokenizerConfigRes env fs p.config_folder_name = Except.ok cfgP)
    (h2 : tokenizerRes env fs p.config_folder_name = Except.ok tokP)
    (h3 : (if p.system_prompt_file = "" then Except.ok none
           else Except.map some (systemPromptRes env fs p.system_prompt_file)) =
          Except.error e) :
    _load_files env fs p = Except.error e := by
  unfold _load_files
  rw [h1, h2, h3]

/-- A failing tool resolution aborts _load_files with its error. -/
lemma _load_files_tools_err {env : Env} {fs : FS} {p : InferenceProfile}
    {cfgP tokP : String} {spP : Option String} {e : PyError}
    (h1 : tokenizerConfigRes env fs p.config_folder_name = Except.ok cfgP)
    (h2 : tokenizerRes env fs p.config_folder_name = Except.ok tokP)
    (h3 : (if p.system_prompt_file = "" then Except.ok none
           else Except.map some (systemPromptRes env fs p.system_prompt_file)) = Except.ok spP)
    (h4 : (if p.tools.isEmpty then Except.ok none
           else Except.map some (p.tools.mapM (toolRes env fs))) = Except.error e) :
    _load_files env fs p = Except.error e := by
  unfold _load_files
  rw [h1, h2, h3, h4]

/-- Claim C7: with an empty system_prompt_file no system-prompt resource is
consulted (construction is invariant under changing SYSTEM_PROMPTS_DIR) and
the attribute stays unset on success; with a non-empty name, a missing
prompt file is fatal with the resolver NotFoundError; a failing resolution
of any listed tool is equally fatal, propagating the resolver error. -/
theorem C7_prompt_optional_tools_required (env env2 : Env) (fs : FS) (a : CtorArgs) :
    (a.system_prompt_file = "" →
      (∀ e2, e2 ≠ "SYSTEM_PROMPTS_DIR" → env e2 = env2 e2) →
      init_profile env fs a = init_profile env2 fs a)
    ∧ (a.system_prompt_file = "" → ∀ p, init_profile env fs a = Except.ok p →
        p.system_prompt = none)
    ∧ (∀ c1 c2 sp, tokenizerConfigRes env fs a.config_folder_name = Except.ok c1 →
        tokenizerRes env fs a.config_folder_name = Except.ok c2 →
        env "SYSTEM_PROMPTS_DIR" = some sp →
        a.system_prompt_file ≠ "" →
        fs.isFile (os_path_join sp (a.system_prompt_file ++ ".txt")) = false →
        init_profile env fs a = Except.error (PyError.fileNotFoundError
          ("The file " ++ os_path_join sp (a.system_prompt_file ++ ".txt") ++
            " could not be found.")))
    ∧ (∀ c1 c2 spP e, tokenizerConfigRes env fs a.config_folder_name = Except.ok c1 →
        tokenizerRes env fs a.config_folder_name = Except.ok c2 →
        (if a.system_prompt_file = "" then Except.ok none
         else Except.map some (systemPromptRes env fs a.system_prompt_file)) =
          Except.ok spP →
        a.tools.mapM (toolRes env fs) = Except.error e →
        init_profile env fs a = Except.error e) := by
  refine ⟨?_, ?_, ?_, ?_⟩
  · intro hspf hagree
    unfold init_profile _load_files
    have hm : env "MODEL_CONFIG_DIR" = env2 "MODEL_CONFIG_DIR" := hagree _ (by decide)
    have htd : env "TOOL_DEFINITIONS_DIR" = env2 "TOOL_DEFINITIONS_DIR" := hagree _ (by decide)
    have h1 : tokenizerConfigRes env fs (mkStored a).config_folder_name
        = tokenizerConfigRes env2 fs (mkStored a).config_folder_name := by
      unfold tokenizerConfigRes
      exact get_full_resource_path_env_congr fs _ hm
    have h2 : tokenizerRes env fs (mkStored a).config_folder_name
        = tokenizerRes env2 fs (mkStored a).config_folder_name := by
      unfold tokenizerRes
      exact get_full_resource_path_env_congr fs _ hm
    have h3 : toolRes env fs = toolRes env2 fs := by
      funext t
      unfold toolRes
      exact get_full_resource_path_env_congr fs _ htd
    have hspf2 : (mkStored a).system_prompt_file = "" := hspf
    rw [h1, h2, h3, if_pos hspf2, if_pos hspf2]
  · intro hspf p hp
    have h0 : _load_files env fs (mkStored a) = Except.ok p := hp
    obtain ⟨cfgP, tokP, spP, toolPs, h1, h2, h3, h4, h5⟩ := _load_files_ok_inv h0
    rw [if_pos (show (mkStored a).system_prompt_file = "" from hspf)] at h3
    injection h3 with h3
    subst h3
    exact loadPhase_ok_prompt_none h5
  · intro c1 c2 sp h1 h2 henv hspf hmiss
    have hres : systemPromptRes env fs a.system_prompt_file = Except.error
        (PyError.fileNotFoundError ("The file " ++
          os_path_join sp (a.system_prompt_file ++ ".txt") ++ " could not be found.")) := by
      unfold systemPromptRes get_full_resource_path file_sanity_check
      rw [henv]
      simp [hmiss]
    have h3 : (if (mkStored a).system_prompt_file = "" then Except.ok none
               else Except.map some
                 (systemPromptRes env fs (mkStored a).system_prompt_file)) =
        Except.error (PyError.fileNotFoundError ("The file " ++
          os_path_join sp (a.system_prompt_file ++ ".txt") ++ " could not be found.")) := by
      rw [if_neg (show ¬ (mkStored a).system_prompt_file = "" from hspf)]
      rw [show (mkStored a).system_prompt_file = a.system_prompt_file from rfl, hres]
      rfl
    exact _load_files_prompt_err h1 h2 h3
  · intro c1 c2 spP e h1 h2 h3 h4
    have hne : a.tools.isEmpty = false := by
      cases hte : a.tools with
      | nil =>
        exfalso
        rw [hte, List.mapM_nil] at h4
        exact Except.noConfusion h4
      | cons x xs => rfl
    have h4' : (if (mkStored a).tools.isEmpty then Except.ok none
                else Except.map some ((mkStored a).tools.mapM (toolRes env fs))) =
        Except.error e := by
      rw [show (mkStored a).tools = a.tools from rfl,
          if_neg (show ¬ a.tools.isEmpty = true by rw [hne]; exact Bool.false_ne_true),
          h4]
      rfl
    exact _load_files_tools_err h1 h2 h3 h4'

/-- Witness for C7: the prompt attribute stays unset on the promptless
construction; a missing prompt file and a missing tool file are fatal. -/
theorem C7_prompt_optional_tools_required_witness :
    pW.system_prompt = none
    ∧ init_profile envW fsW argsPrompt = Except.error (PyError.fileNotFoundError
        "The file /prompts/sys.txt could not be found.")
    ∧ init_profile envW fsW argsTool = Except.error (PyError.fileNotFoundError
        "The file /tools/t.json could not be found.") := by
  refine ⟨?_, ?_, ?_⟩
  · exact (C7_prompt_optional_tools_required envW envW fsW argsW).2.1 rfl pW rfl
  · exact (C7_prompt_optional_tools_required envW envW fsW argsPrompt).2.2.1
      "/cfg/m/tokenizer_config.json" "/cfg/m/tokenizer.json" "/prompts"
      rfl rfl rfl (by decide) rfl
  · exact (C7_prompt_optional_tools_required envW envW fsW argsTool).2.2.2
      "/cfg/m/tokenizer_config.json" "/cfg/m/tokenizer.json" none
      (PyError.fileNotFoundError "The file /tools/t.json could not be found.")
      rfl rfl rfl rfl

/-- The save-profile probe returns candidate k when every earlier candidate
is taken and candidate k is free, given enough fuel. -/
lemma findFreePath_finds (fs : FS) (dir name : String) (k : Nat)
    (hfree : fs.pathExists (candidatePath dir name k) = false)
    (hall : ∀ i, i < k → fs.pathExists (candidatePath dir name i) = true) :
    ∀ fuel s, s ≤ k → k - s < fuel →
    findFreePath fs dir name fuel s = some (candidatePath dir name k) := by
  intro fuel
  induction fuel with
  | zero => intro s hs hlt; omega
  | succ f ih =>
    intro s hs hlt
    unfold findFreePath
    by_cases hsk : s = k
    · subst hsk
      simp [hfree]
    · have hs' : s < k := lt_of_le_of_ne hs hsk
      simp only [hall s hs', if_true]
      exact ih (s + 1) hs' (by omega)

/-- save_profile writes at the first free candidate: helper form shared by
the collision-policy and round-trip results. -/
lemma save_profile_writes {env : Env} {fs : FS} {p : InferenceProfile}
    {profile_name dir : String} {fuel k : Nat}
    (hdir : env "PROFILES_DIR" = some dir) (hne : dir ≠ "")
    (hk : k < fuel)
    (hfree : fs.pathExists (candidatePath dir profile_name k) = false)
    (hall : ∀ i, i < k → fs.pathExists (candidatePath dir profile_name i) = true) :
    save_profile env fs p profile_name fuel =
      Except.ok (candidatePath dir profile_name k,
        fs.withFile (candidatePath dir profile_name k) (_to_dict p)) := by
  unfold save_profile
  rw [hdir]
  dsimp only
  rw [if_neg hne,
    findFreePath_finds fs dir profile_name k hfree hall fuel 0 (Nat.zero_le k) (by omega)]

/-- Claim C4: save_profile never overwrites: when the candidates below k
are all taken and candidate k (name.json for k = 0, name_k.json otherwise)
is free, the profile is written at candidate k, the first free probe. -/
theorem C4_save_profile_first_free_candidate (env : Env) (fs : FS) (p : InferenceProfile)
    (profile_name dir : String) (fuel k : Nat)
    (hdir : env "PROFILES_DIR" = some dir) (hne : dir ≠ "")
    (hk : k < fuel)
    (hfree : fs.pathExists (candidatePath dir profile_name k) = false)
    (hall : ∀ i, i < k → fs.pathExists (candidatePath dir profile_name i) = true) :
    save_profile env fs p profile_name fuel =
      Except.ok (candidatePath dir profile_name k,
        fs.withFile (candidatePath dir profile_name k) (_to_dict p)) :=
  save_profile_writes hdir hne hk hfree hall

/-- Witness for C4: with /profiles/p.json and /profiles/p_1.json taken, the
profile is saved at /profiles/p_2.json. -/
theorem C4_save_profile_first_free_candidate_witness :
    save_profile envW fsTwoTaken pFix "p" 5 =
      Except.ok (candidatePath "/profiles" "p" 2,
        fsTwoTaken.withFile (candidatePath "/profiles" "p" 2) (_to_dict pFix)) :=
  C4_save_profile_first_free_candidate envW fsTwoTaken pFix "p" "/profiles" 5 2
    rfl (by decide) (by decide) rfl (by decide)

/-- Decoding the serialized field mapping recovers the construction
keywords. -/
lemma paramsOfJson_to_dict (p : InferenceProfile) :
    paramsOfJson (_to_dict p) = Except.ok (argsOf p) := rfl

/-- The eight core fields transfer along a coreOf equality. -/
lemma coreOf_eq_fields {q r : InferenceProfile} (h : coreOf q = coreOf r) :
    q.engine_name = r.engine_name ∧ q.base_url = r.base_url ∧ q.model_id = r.model_id
    ∧ q.config_folder_name = r.config_folder_name ∧ q.api_key = r.api_key
    ∧ q.system_prompt_file = r.system_prompt_file
    ∧ q.optional_hyper_parameters = r.optional_hyper_parameters
    ∧ q.load_tokenizer_flag = r.load_tokenizer_flag :=
  ⟨congrArg (fun t => t.1) h, congrArg (fun t => t.2.1) h, congrArg (fun t => t.2.2.1) h,
   congrArg (fun t => t.2.2.2.1) h, congrArg (fun t => t.2.2.2.2.1) h,
   congrArg (fun t => t.2.2.2.2.2.1) h, congrArg (fun t => t.2.2.2.2.2.2.1) h,
   congrArg (fun t => t.2.2.2.2.2.2.2) h⟩

/-- Profiles agreeing on the core fields and on tools serialize equally. -/
lemma _to_dict_congr {q r : InferenceProfile} (hc : coreOf q = coreOf r)
    (ht : q.tools = r.tools) : _to_dict q = _to_dict r := by
  obtain ⟨h1, h2, h3, h4, h5, h6, h7, h8⟩ := coreOf_eq_fields hc
  unfold _to_dict
  rw [h1, h2, h3, h4, h5, h6, h7, h8, ht]

/-- Writing a new file preserves a passing sanity check. -/
lemma file_sanity_check_withFile_ok {fs : FS} {r : String} (sp : String) (doc : JValue)
    (h : file_sanity_check fs r = Except.ok ()) :
    file_sanity_check (fs.withFile sp doc) r = Except.ok () := by
  unfold file_sanity_check at h
  split at h
  · exact Except.noConfusion h
  · split at h
    · exact Except.noConfusion h
    · split at h
      · exact Except.noConfusion h
      · rename_i h1 h2 h3
        have h1' : fs.isFile r = true := by
          cases hx : fs.isFile r
          · exact absurd hx h1
          · rfl
        have h2' : fs.readable r = true := by
          cases hx : fs.readable r
          · exact absurd hx h2
          · rfl
        unfold file_sanity_check FS.withFile
        by_cases hq : (r == sp) = true
        · simp [hq, h1', h2']
        · simp only [Bool.not_eq_true] at hq
          simp [hq, h1', h2', h3]

/-- Writing a new file preserves a successful resolution. -/
lemma get_full_resource_path_withFile_ok {env : Env} {fs : FS} {e n r : String}
    (sp : String) (doc : JValue)
    (h : get_full_resource_path env fs e n = Except.ok r) :
    get_full_resource_path env (fs.withFile sp doc) e n = Except.ok r := by
  unfold get_full_resource_path at h ⊢
  cases he : env e with
  | none => rw [he] at h; exact Except.noConfusion h
  | some v =>
    rw [he] at h
    dsimp only at h ⊢
    cases hs : file_sanity_check fs (os_path_join v n) with
    | error e2 => rw [hs] at h; exact Except.noConfusion h
    | ok u =>
      cases u
      rw [hs] at h
      rw [file_sanity_check_withFile_ok sp doc hs]
      exact h

/-- Writing a new file preserves the tokenizer-config resolution. -/
lemma tokenizerConfigRes_withFile_ok {env : Env} {fs : FS} {c r : String}
    (sp : String) (doc : JValue) (h : tokenizerConfigRes env fs c = Except.ok r) :
    tokenizerConfigRes env (fs.withFile sp doc) c = Except.ok r := by
  unfold tokenizerConfigRes at h ⊢
  exact get_full_resource_path_withFile_ok sp doc h

/-- Writing a new file preserves the tokenizer resolution. -/
lemma tokenizerRes_withFile_ok {env : Env} {fs : FS} {c r : String}
    (sp : String) (doc : JValue) (h : tokenizerRes env fs c = Except.ok r) :
    tokenizerRes env (fs.withFile sp doc) c = Except.ok r := by
  unfold tokenizerRes at h ⊢
  exact get_full_resource_path_withFile_ok sp doc h

/-- Writing a new file preserves the system-prompt resolution. -/
lemma systemPromptRes_withFile_ok {env : Env} {fs : FS} {s r : String}
    (sp : String) (doc : JValue) (h : systemPromptRes env fs s = Except.ok r) :
    systemPromptRes env (fs.withFile sp doc) s = Except.ok r := by
  unfold systemPromptRes at h ⊢
  exact get_full_resource_path_withFile_ok sp doc h

/-- Inversion of a successful loadPhase into its two stages. -/
lemma loadPhase_ok_inv {fs : FS} {p : InferenceProfile} {cfgP tokP : String}
    {spP : Option String} {toolPs : Option (List String)} {q : InferenceProfile}
    (h : loadPhase fs p cfgP tokP spP toolPs = Except.ok q) :
    ∃ p2, setTokenizerConfig fs (setTokenizer fs p tokP) cfgP = Except.ok p2
      ∧ setTools fs (setSystemPrompt fs p2 spP) toolPs = Except.ok q := by
  unfold loadPhase at h
  split at h
  · exact Except.noConfusion h
  · rename_i p2 hc
    exact ⟨p2, hc, h⟩

/-- Reconstructing a profile with empty tools from its own serialized field
mapping, on the filesystem extended by the saved file, succeeds and
serializes identically. -/
lemma init_again_withFile {env : Env} {fs : FS} {a : CtorArgs} {p : InferenceProfile}
    (sp : String) (doc : JValue)
    (hinit : init_profile env fs a = Except.ok p) (htools : a.tools = []) :
    ∃ p2, init_profile env (fs.withFile sp doc) (argsOf p) = Except.ok p2
      ∧ _to_dict p2 = _to_dict p := by
  have h0 : _load_files env fs (mkStored a) = Except.ok p := hinit
  obtain ⟨cfgP, tokP, spP, toolPs, h1, h2, h3, h4, h5⟩ := _load_files_ok_inv h0
  have hcore := loadPhase_ok_coreOf h5
  obtain ⟨hen, hbu, hmi, hcf, hak, hsf, hoh, hfl⟩ := coreOf_eq_fields hcore
  have htoolsPs : toolPs = none := by
    rw [if_pos (show (mkStored a).tools.isEmpty = true by
      rw [show (mkStored a).tools = a.tools from rfl, htools]; rfl)] at h4
    injection h4 with h4
    exact h4.symm
  subst htoolsPs
  have hptools : p.tools = [] := by
    have ht := loadPhase_ok_tools_none h5
    rw [ht]
    exact (show (mkStored a).tools = a.tools from rfl).trans htools
  have h1' : tokenizerConfigRes env (fs.withFile sp doc)
      (mkStored (argsOf p)).config_folder_name = Except.ok cfgP := by
    rw [show (mkStored (argsOf p)).config_folder_name = (mkStored a).config_folder_name
      from hcf]
    exact tokenizerConfigRes_withFile_ok sp doc h1
  have h2' : tokenizerRes env (fs.withFile sp doc)
      (mkStored (argsOf p)).config_folder_name = Except.ok tokP := by
    rw [show (mkStored (argsOf p)).config_folder_name = (mkStored a).config_folder_name
      from hcf]
    exact tokenizerRes_withFile_ok sp doc h2
  have h3' : (if (mkStored (argsOf p)).system_prompt_file = "" then Except.ok none
              else Except.map some (systemPromptRes env (fs.withFile sp doc)
                (mkStored (argsOf p)).system_prompt_file)) = Except.ok spP := by
    rw [show (mkStored (argsOf p)).system_prompt_file = (mkStored a).system_prompt_file
      from hsf]
    by_cases hspf : (mkStored a).system_prompt_file = ""
    · rw [if_pos hspf]
      rw [if_pos hspf] at h3
      exact h3
    · rw [if_neg hspf]
      rw [if_neg hspf] at h3
      cases hr : systemPromptRes env fs (mkStored a).system_prompt_file with
      | error e2 =>
        rw [hr] at h3
        exact Except.noConfusion h3
      | ok r =>
        rw [hr] at h3
        rw [systemPromptRes_withFile_ok sp doc hr]
        exact h3
  have h4' : (if (mkStored (argsOf p)).tools.isEmpty then Except.ok none
              else Except.map some ((mkStored (argsOf p)).tools.mapM
                (toolRes env (fs.withFile sp doc)))) = Except.ok none := by
    rw [if_pos (show (mkStored (argsOf p)).tools.isEmpty = true by
      rw [show (mkStored (argsOf p)).tools = p.tools from rfl, hptools]; rfl)]
  obtain ⟨pm, hpm, hpt⟩ := loadPhase_ok_inv h5
  have hcond := setTokenizerConfig_ok_inv hpm
  have hcond2 : (fs.withFile sp doc).pathExists cfgP = true →
      ∃ d, (fs.withFile sp doc).jsonDoc cfgP = some d := by
    intro hex
    by_cases hq : cfgP = sp
    · subst hq
      exact ⟨doc, by simp [FS.withFile]⟩
    · have hex' : fs.pathExists cfgP = true := by
        simpa [FS.withFile, hq] using hex
      obtain ⟨d, hd⟩ := hcond hex'
      exact ⟨d, by simp [FS.withFile, hq, hd]⟩
  obtain ⟨q2, hq2⟩ := setTokenizerConfig_ok_cond
    (setTokenizer (fs.withFile sp doc) (mkStored (argsOf p)) tokP) hcond2
  have hlp : loadPhase (fs.withFile sp doc) (mkStored (argsOf p)) cfgP tokP spP none =
      Except.ok (setSystemPrompt (fs.withFile sp doc) q2 spP) := by
    unfold loadPhase
    rw [hq2]
    exact setTools_none _ _
  refine ⟨setSystemPrompt (fs.withFile sp doc) q2 spP, ?_, ?_⟩
  · show _load_files env (fs.withFile sp doc) (mkStored (argsOf p)) = _
    rw [_load_files_ok_steps h1' h2' h3' h4', hlp]
  · have hc2 : coreOf (setSystemPrompt (fs.withFile sp doc) q2 spP) =
        coreOf (mkStored (argsOf p)) := by
      calc coreOf (setSystemPrompt (fs.withFile sp doc) q2 spP)
          = coreOf q2 := setSystemPrompt_coreOf _ q2 spP
        _ = coreOf (setTokenizer (fs.withFile sp doc) (mkStored (argsOf p)) tokP) :=
            setTokenizerConfig_coreOf hq2
        _ = coreOf (mkStored (argsOf p)) := setTokenizer_coreOf _ _ tokP
    have ht2 : (setSystemPrompt (fs.withFile sp doc) q2 spP).tools =
        (mkStored (argsOf p)).tools := by
      calc (setSystemPrompt (fs.withFile sp doc) q2 spP).tools
          = q2.tools := setSystemPrompt_tools _ q2 spP
        _ = (setTokenizer (fs.withFile sp doc) (mkStored (argsOf p)) tokP).tools :=
            setTokenizerConfig_tools hq2
        _ = (mkStored (argsOf p)).tools := setTokenizer_tools _ _ tokP
    exact (_to_dict_congr hc2 ht2).trans
      (show _to_dict (mkStored (argsOf p)) = _to_dict p from rfl)

/-- Counterexample to claim C2 as stated over every profile: on a profile
whose tools were loaded (tools = [document]), save_profile under the fresh
name q serializes the documents, and load_profile on q fails with the
resolver NotFoundError while re-resolving the f-string rendering of the
document as a tool name — no profile is reconstructed at all. -/
theorem C2_roundtrip_counterexample :
    init_profile envW fsTools argsTool = Except.ok pTools
    ∧ save_profile envW fsTools pTools "q" 1 =
        Except.ok ("/profiles/q.json", fsTools.withFile "/profiles/q.json" (_to_dict pTools))
    ∧ load_profile envW (fsTools.withFile "/profiles/q.json" (_to_dict pTools)) "q" =
        Except.error (PyError.fileNotFoundError
          "The file /tools/\x7b\x27name\x27: \x27t\x27\x7d.json could not be found.") :=
  ⟨rfl, rfl, rfl⟩

/-- Claim C2 (amended): for a profile whose tools list is empty, saving
under a fresh name and loading that name reconstructs a profile whose
serialized field mapping (_to_dict) equals the original one. -/
theorem C2_roundtrip_empty_tools (env : Env) (fs : FS) (a : CtorArgs)
    (p : InferenceProfile) (profile_name dir : String) (fuel : Nat)
    (hdir : env "PROFILES_DIR" = some dir) (hne : dir ≠ "")
    (htools : a.tools = [])
    (hinit : init_profile env fs a = Except.ok p)
    (hfresh : fs.pathExists (candidatePath dir profile_name 0) = false)
    (hfuel : 0 < fuel) :
    save_profile env fs p profile_name fuel =
      Except.ok (candidatePath dir profile_name 0,
        fs.withFile (candidatePath dir profile_name 0) (_to_dict p))
    ∧ (load_profile env (fs.withFile (candidatePath dir profile_name 0) (_to_dict p))
        profile_name).map _to_dict = Except.ok (_to_dict p) := by
  constructor
  · exact save_profile_writes hdir hne hfuel hfresh (fun i hi => absurd hi (Nat.not_lt_zero i))
  · obtain ⟨p2, hinit2, hdict⟩ :=
      init_again_withFile (candidatePath dir profile_name 0) (_to_dict p) hinit htools
    have hsc : file_sanity_check
        (fs.withFile (candidatePath dir profile_name 0) (_to_dict p))
        (os_path_join dir (profile_name ++ ".json")) = Except.ok () := by
      unfold file_sanity_check FS.withFile
      simp only [candidatePath]
      simp
    have hres : get_full_resource_path env
        (fs.withFile (candidatePath dir profile_name 0) (_to_dict p))
        "PROFILES_DIR" (profile_name ++ ".json") =
        Except.ok (os_path_join dir (profile_name ++ ".json")) := by
      unfold get_full_resource_path
      rw [hdir]
      dsimp only
      rw [hsc]
    have hjson : (fs.withFile (candidatePath dir profile_name 0) (_to_dict p)).jsonDoc
        (os_path_join dir (profile_name ++ ".json")) = some (_to_dict p) := by
      show (if ((os_path_join dir (profile_name ++ ".json")) ==
          candidatePath dir profile_name 0) then some (_to_dict p)
        else fs.jsonDoc (os_path_join dir (profile_name ++ ".json"))) = some (_to_dict p)
      simp [candidatePath]
    unfold load_profile
    rw [hres]
    dsimp only
    rw [hjson]
    dsimp only
    rw [show paramsOfJson (_to_dict p) = Except.ok (argsOf p) from rfl]
    dsimp only
    rw [hinit2]
    show Except.ok (_to_dict p2) = Except.ok (_to_dict p)
    rw [hdict]

/-- Witness for C2 (amended): the concrete empty-tools profile pW saved
under the fresh name q and reloaded, with equal field mapping. -/
theorem C2_roundtrip_empty_tools_witness :
    save_profile envW fsW pW "q" 1 =
      Except.ok (candidatePath "/profiles" "q" 0,
        fsW.withFile (candidatePath "/profiles" "q" 0) (_to_dict pW))
    ∧ (load_profile envW (fsW.withFile (candidatePath "/profiles" "q" 0) (_to_dict pW))
        "q").map _to_dict = Except.ok (_to_dict pW) :=
  C2_roundtrip_empty_tools envW fsW argsW pW "q" "/profiles" 1
    rfl (by decide) rfl rfl rfl (by decide)
